import Mathlib

/-!
Shallow embedding of the agent transport-channel module (src/channel.go).

The module discovers which transport (vsock or virtio-serial) the host has
provisioned, with a bounded retry loop; resolves a virtio serial channel name
to a device path; probes AF_VSOCK support; waits for serial peer readiness via
edge-triggered epoll; and tears the serial channel down with a bounded wait on
the yamux close notification.

External effects (filesystem stats, directory listings, socket syscalls,
epoll events, timer/channel races) are passed in as explicit environment
values; each Lean definition mirrors the control flow of the corresponding Go
function over those inputs.
-/

namespace Agent

/-- Mirrors the package-level variable `channelExistMaxTries = 200`. -/
def channelExistMaxTries : Nat := 200

/-- Mirrors `channelCloseTimeout = 5 * time.Second`, counted in whole seconds
(abstract time units). -/
def channelCloseTimeout : Nat := 5

/-- Modelled from the spec: the fixed device-root prefix (`devRootPath`) under
which serial device nodes live; the constant itself is defined outside the
provided source file. Its concrete value is irrelevant to every claim. -/
def devRootPath : String := "/dev"

/-- Go `filepath.Join` for one clean absolute prefix and one clean child
component, as used at src/channel.go:275. -/
def filepathJoin (a b : String) : String := a ++ "/" ++ b

/-- Helper for Go `strings.Contains`: does `s` start with `sub`? -/
def matchesAt : List Char → List Char → Bool
  | _, [] => true
  | [], _ :: _ => false
  | c :: cs, d :: ds => c == d && matchesAt cs ds

/-- Helper for Go `strings.Contains`: does `sub` occur inside `s`? -/
def containsSub : List Char → List Char → Bool
  | [], sub => sub.isEmpty
  | c :: cs, sub => matchesAt (c :: cs) sub || containsSub cs sub

/-- Go `strings.Contains s sub` (substring containment), as used at
src/channel.go:274. -/
def goStringsContains (s sub : String) : Bool :=
  containsSub s.toList sub.toList

/-- Outcome of `ioutil.ReadFile` on one child's `name` descriptor file:
the file does not exist, some other read error, or its content. -/
inductive ReadResult where
  | notExist
  | readErr (e : String)
  | content (s : String)
  deriving DecidableEq

/-- The distinct error values `findVirtualSerialPath` can return: the raw OS
error from opening/listing the root directory, the raw error from reading a
descriptor file (other than not-exist), or the grpc `codes.NotFound` status
built at src/channel.go:279. -/
inductive ResolveErr where
  | rootUnavailable (e : String)
  | readFailure (e : String)
  | notFound (serialName : String)
  deriving DecidableEq

/-- The `for _, port := range ports` loop of `findVirtualSerialPath`
(src/channel.go:263-277): skip a child whose descriptor file does not exist,
fail on any other read error, return the device path on the first child whose
descriptor content contains `serialName`. -/
def findInPorts (serialName : String) :
    List (String × ReadResult) → Except ResolveErr String
  | [] => .error (.notFound serialName)
  | (port, r) :: rest =>
    match r with
    | .notExist => findInPorts serialName rest
    | .readErr e => .error (.readFailure e)
    | .content s =>
      if goStringsContains s serialName then .ok (filepathJoin devRootPath port)
      else findInPorts serialName rest

/-- Embeds `findVirtualSerialPath` (src/channel.go:250-280). `root` is the combined
outcome of `os.Open(virtIOPath)` and `dir.Readdirnames(0)`: either an error or
the list of children, each paired with the outcome of reading its `name`
descriptor file. -/
def findVirtualSerialPath (serialName : String)
    (root : Except String (List (String × ReadResult))) : Except ResolveErr String :=
  match root with
  | .error e => .error (.rootUnavailable e)
  | .ok ports => findInPorts serialName ports

/-- Outcome of `unix.Socket(unix.AF_VSOCK, unix.SOCK_STREAM, 0)`: a file
descriptor, the `EAFNOSUPPORT` error, or some other error. -/
inductive SocketResult where
  | ok (fd : Nat)
  | errAFNoSupport
  | errOther (e : String)
  deriving DecidableEq

/-- Embeds `isAFVSockSupported` (src/channel.go:231-248). `closeErr` is the outcome
of `unix.Close(fd)`, consulted only when socket creation succeeded. -/
def isAFVSockSupported (sock : SocketResult) (closeErr : Option String) :
    Bool × Option String :=
  match sock with
  | .errAFNoSupport => (false, none)
  | .errOther e => (false, some e)
  | .ok _ =>
    match closeErr with
    | some e => (true, some e)
    | none => (true, none)

/-- What one iteration of the `newChannel` retry loop observes:
whether `os.Stat(vSockDevPath)` succeeded, the inputs of the capability probe
(run only when the stat succeeded), and the outcome of
`findVirtualSerialPath`. -/
structure IterEnv where
  vsockStat : Bool
  probeSock : SocketResult
  probeCloseErr : Option String
  serial : Except String String

/-- The channel variant `newChannel` returns: `&vSockChannel{}` or
`&serialChannel{serialPath: path}`. -/
inductive ChannelVariant where
  | vSock
  | serial (serialPath : String)
  deriving DecidableEq

/-- The error message built by `fmt.Errorf` at src/channel.go:84. -/
def notFoundMsg : String := "Neither vsocks nor serial ports were found"

/-- Observable outcome of `newChannel`: the returned value or error, the
number of `time.Sleep(channelExistWaitTime)` calls performed, the iteration
index at which it returned (none on exhaustion), and the final values of the
`serialErr` and `vsockErr` variables (the ones logged on total failure at
src/channel.go:76-82). -/
structure DiscoveryResult where
  ret : Except String ChannelVariant
  sleeps : Nat
  retIter : Option Nat
  lastSerialErr : Option String
  lastVsockErr : Option String

/-- The `for i := 0; i < channelExistMaxTries; i++` loop of `newChannel`
(src/channel.go:57-84), with `fuel` iterations remaining and `i` the current
index. Each iteration: if the vsock device path exists and the probe reports
support with a nil error, return the vsock variant; else try the serial
resolver and return the serial variant on success; else sleep and retry. -/
def newChannelAux (env : Nat → IterEnv) :
    Nat → Nat → Option String → Option String → Nat → DiscoveryResult
  | 0, _, serialErr, vsockErr, sleeps =>
    ⟨.error notFoundMsg, sleeps, none, serialErr, vsockErr⟩
  | fuel + 1, i, serialErr, vsockErr, sleeps =>
    let it := env i
    if it.vsockStat then
      let probe := isAFVSockSupported it.probeSock it.probeCloseErr
      if probe.1 = true ∧ probe.2 = none then
        ⟨.ok .vSock, sleeps, some i, serialErr, probe.2⟩
      else
        match it.serial with
        | .ok path => ⟨.ok (.serial path), sleeps, some i, none, probe.2⟩
        | .error e => newChannelAux env fuel (i + 1) (some e) probe.2 (sleeps + 1)
    else
      match it.serial with
      | .ok path => ⟨.ok (.serial path), sleeps, some i, none, vsockErr⟩
      | .error e => newChannelAux env fuel (i + 1) (some e) vsockErr (sleeps + 1)

/-- Embeds `newChannel` (src/channel.go:48-85) with `maxTries` iterations, run over
the per-iteration observations `env`. -/
def newChannel (env : Nat → IterEnv) (maxTries : Nat) : DiscoveryResult :=
  newChannelAux env maxTries 0 none none 0

/-- The constant `unix.EPOLLOUT`. -/
def EPOLLOUT : Nat := 4
/-- The constant `unix.EPOLLERR`. -/
def EPOLLERR : Nat := 8
/-- The constant `unix.EPOLLHUP`. -/
def EPOLLHUP : Nat := 16

/-- An epoll readiness event as delivered to `serialChannel.wait`: the event
mask and the file descriptor it is for. -/
structure EpollEvent where
  events : Nat
  fd : Nat
  deriving DecidableEq

/-- Result of `serialChannel.wait`: peer attached (returns nil), the
"serial port IO failure" error, the "serial port IO closed" error for a zero
descriptor, or still blocked (the finite event trace ran out and the loop is
waiting for further events). -/
inductive WaitResult where
  | ready
  | ioFailure
  | ioClosed
  | pending
  deriving DecidableEq

/-- The event-processing loop of `serialChannel.wait` (src/channel.go:154-175)
over the flattened sequence of delivered events: for each event on this
descriptor, EPOLLOUT returns success, else EPOLLERR returns the IO-failure
error, else EPOLLHUP continues, else continue; events for other descriptors
are ignored. -/
def serialWaitRun (fd : Nat) : List EpollEvent → WaitResult
  | [] => .pending
  | ev :: rest =>
    if ev.fd = fd then
      if ev.events &&& EPOLLOUT ≠ 0 then .ready
      else if ev.events &&& EPOLLERR ≠ 0 then .ioFailure
      else if ev.events &&& EPOLLHUP ≠ 0 then serialWaitRun fd rest
      else serialWaitRun fd rest
    else serialWaitRun fd rest

/-- Embeds `serialChannel.wait` (src/channel.go:129-178): the zero-descriptor guard
at src/channel.go:134 followed by the epoll event loop. -/
def serialChannelWait (fd : Nat) (evs : List EpollEvent) : WaitResult :=
  if fd = 0 then .ioClosed else serialWaitRun fd evs

/-- Environment of `serialChannel.teardown`: `waitCh` is `none` when `listen`
never ran (the field is nil), `some none` when the yamux close notification
never fires, and `some (some t)` when it fires `t` time units after teardown
starts; `closeErr` is the outcome of `c.serialConn.Close()`. -/
structure TeardownEnv where
  waitCh : Option (Option Nat)
  closeErr : Option String
  deriving DecidableEq

/-- Observable outcome of `serialChannel.teardown`: the returned error (if
any), whether `Close()` was called on the descriptor, and the elapsed time. -/
structure TeardownResult where
  err : Option String
  closedCalled : Bool
  elapsed : Nat
  deriving DecidableEq

/-- The error message built by `fmt.Errorf` at src/channel.go:225. -/
def teardownTimeoutMsg : String := "timeout waiting for yamux channel to close"

/-- Embeds `serialChannel.teardown` (src/channel.go:217-229): when a session exists,
race the close notification against a `channelCloseTimeout` timer — a
notification strictly inside the deadline wins and teardown proceeds to
`Close()`; otherwise the timer fires and teardown returns the timeout error
immediately, without reaching the `Close()` call. With no session it closes
at once. -/
def serialChannelTeardown (e : TeardownEnv) : TeardownResult :=
  match e.waitCh with
  | none => ⟨e.closeErr, true, 0⟩
  | some none => ⟨some teardownTimeoutMsg, false, channelCloseTimeout⟩
  | some (some t) =>
    if t < channelCloseTimeout then ⟨e.closeErr, true, t⟩
    else ⟨some teardownTimeoutMsg, false, channelCloseTimeout⟩

/-- A child either lacks its descriptor file or has readable content that does
not contain the target name: the resolver loop passes over it. -/
def skipOrNoMatch (serialName : String) (x : String × ReadResult) : Prop :=
  x.2 = .notExist ∨ ∃ s, x.2 = .content s ∧ goStringsContains s serialName = false

instance (serialName : String) (x : String × ReadResult) :
    Decidable (skipOrNoMatch serialName x) := by
  rcases x with ⟨p, r⟩
  unfold skipOrNoMatch
  rcases r with _ | e | s
  · exact isTrue (Or.inl rfl)
  · apply isFalse
    rintro (h | ⟨u, hu, _⟩)
    · exact ReadResult.noConfusion h
    · exact ReadResult.noConfusion hu
  · by_cases hb : goStringsContains s serialName = false
    · exact isTrue (Or.inr ⟨s, rfl, hb⟩)
    · apply isFalse
      rintro (h | ⟨u, hu, hc⟩)
      · exact ReadResult.noConfusion h
      · injection hu with hsu
        subst hsu
        exact hb hc

/-- The success condition of the vsock branch at src/channel.go:59-64:
the stat succeeded, and the probe reported support with a nil error. -/
def vsockSucceeds (it : IterEnv) : Prop :=
  it.vsockStat = true ∧
    (isAFVSockSupported it.probeSock it.probeCloseErr).1 = true ∧
    (isAFVSockSupported it.probeSock it.probeCloseErr).2 = none

instance (it : IterEnv) : Decidable (vsockSucceeds it) := by
  unfold vsockSucceeds
  infer_instance

/-- Is this `findVirtualSerialPath` outcome an error? -/
def isErr : Except String String → Bool
  | .ok _ => false
  | .error _ => true

/-- A discovery iteration that selects neither variant: the vsock branch does
not succeed and serial resolution fails. -/
def iterFails (it : IterEnv) : Prop :=
  ¬ vsockSucceeds it ∧ isErr it.serial = true

instance (it : IterEnv) : Decidable (iterFails it) := by
  unfold iterFails
  infer_instance

/-- The `serialErr` value an all-failing iteration leaves behind. -/
def lastErrOf (it : IterEnv) : Option String :=
  match it.serial with
  | .error e => some e
  | .ok _ => none

/-- An event the wait loop passes over without returning: wrong descriptor, or
neither the writable nor the error flag set. -/
def nonTerminal (fd : Nat) (ev : EpollEvent) : Prop :=
  ev.fd ≠ fd ∨ (ev.events &&& EPOLLOUT = 0 ∧ ev.events &&& EPOLLERR = 0)

instance (fd : Nat) (ev : EpollEvent) : Decidable (nonTerminal fd ev) := by
  unfold nonTerminal
  infer_instance

/-- A hangup-only readiness event for descriptor `fd`. -/
def hupEvent (fd : Nat) : EpollEvent := ⟨EPOLLHUP, fd⟩

/-- A writable-only readiness event for descriptor `fd`. -/
def outEvent (fd : Nat) : EpollEvent := ⟨EPOLLOUT, fd⟩

/-- Test environment: every iteration sees no vsock device path and a failing
serial resolution. -/
def envAllFail : Nat → IterEnv := fun _ =>
  ⟨false, .errAFNoSupport, none, .error "serial not found"⟩

/-- Test environment: the vsock device path is present on every iteration but
socket creation errors, and serial resolution fails throughout. -/
def envStatProbeErrFail : Nat → IterEnv := fun _ =>
  ⟨true, .errOther "socket failed", none, .error "serial not found"⟩

/-- Test environment: a serial device is resolvable on iteration 0; the vsock
device path appears, with a succeeding probe, only from iteration 1 on. -/
def envSerialThenVsock : Nat → IterEnv := fun n =>
  if n = 0 then ⟨false, .errAFNoSupport, none, .ok "/dev/vport1p1"⟩
  else ⟨true, .ok 3, none, .error "serial not found"⟩

/-- Test environment: iteration 0 fails on both branches; from iteration 1 on
the vsock device path is present and the probe succeeds. -/
def envFailThenVsock : Nat → IterEnv := fun n =>
  if n = 0 then ⟨false, .errAFNoSupport, none, .error "serial not found"⟩
  else ⟨true, .ok 3, none, .error "serial not found"⟩

/-- Test environment failing on every iteration with serial error "err A". -/
def envFailA : Nat → IterEnv := fun _ =>
  ⟨false, .errAFNoSupport, none, .error "err A"⟩

/-- Test environment failing on every iteration with serial error "err B". -/
def envFailB : Nat → IterEnv := fun _ =>
  ⟨false, .errAFNoSupport, none, .error "err B"⟩

/-- Test environment: vsock path present, probe socket created but its close
failed, serial device resolvable. -/
def envProbeErrSerial : Nat → IterEnv := fun _ =>
  ⟨true, .ok 5, some "close failed", .ok "/dev/vport2p2"⟩

/-- C8: the capability probe returns `(false, nil)` exactly when socket
creation failed with `EAFNOSUPPORT`; any other creation failure and any
release failure is returned as a non-nil error. -/
theorem probe_false_no_error_iff_af_unsupported
    (sock : SocketResult) (closeErr : Option String) :
    (isAFVSockSupported sock closeErr = (false, none) ↔ sock = .errAFNoSupport) ∧
    (∀ e, sock = .errOther e → (isAFVSockSupported sock closeErr).2 = some e) ∧
    (∀ fd e, sock = .ok fd → closeErr = some e →
      (isAFVSockSupported sock closeErr).2 = some e) := by
  rcases sock with fd | _ | e0
  · rcases closeErr with _ | e1 <;> simp [isAFVSockSupported]
  · simp [isAFVSockSupported]
  · simp [isAFVSockSupported]

/-- Witness for C8 at a concrete input: creation failing with `EAFNOSUPPORT`
yields `(false, nil)`. -/
theorem probe_false_no_error_iff_af_unsupported_witness :
    isAFVSockSupported .errAFNoSupport none = (false, none) :=
  (probe_false_no_error_iff_af_unsupported .errAFNoSupport none).1.mpr rfl

/-- C1 counterexample: when the close notification never fires, `teardown`
does return the timeout error at the deadline, but `Close()` is never reached,
so the descriptor is NOT closed afterward — refuting the claim that it is
still closed. -/
theorem teardown_timeout_descriptor_not_closed :
    (serialChannelTeardown ⟨some none, none⟩).err = some teardownTimeoutMsg ∧
    (serialChannelTeardown ⟨some none, none⟩).elapsed = channelCloseTimeout ∧
    (serialChannelTeardown ⟨some none, none⟩).closedCalled = false :=
  ⟨rfl, rfl, rfl⟩

/-- C1 amended: if the close notification never fires, `teardown` returns the
timeout error exactly at the configured deadline and the descriptor is NOT
closed on that path; the descriptor is closed (exactly once) precisely on the
non-timeout paths — no session, or notification inside the deadline. -/
theorem teardown_timeout_path_and_close_once (e : TeardownEnv) :
    (e.waitCh = some none →
      serialChannelTeardown e =
        ⟨some teardownTimeoutMsg, false, channelCloseTimeout⟩) ∧
    (e.waitCh = none → serialChannelTeardown e = ⟨e.closeErr, true, 0⟩) ∧
    (∀ t, e.waitCh = some (some t) → t < channelCloseTimeout →
      serialChannelTeardown e = ⟨e.closeErr, true, t⟩) := by
  refine ⟨?_, ?_, ?_⟩
  · intro h
    simp [serialChannelTeardown, h]
  · intro h
    simp [serialChannelTeardown, h]
  · intro t h ht
    simp [serialChannelTeardown, h, ht]

/-- Witness for the amended C1 at a concrete input: a never-firing
notification gives the timeout error at the deadline with the descriptor left
open. -/
theorem teardown_timeout_path_witness :
    serialChannelTeardown ⟨some none, some "close failed"⟩ =
      ⟨some teardownTimeoutMsg, false, channelCloseTimeout⟩ :=
  (teardown_timeout_path_and_close_once ⟨some none, some "close failed"⟩).1 rfl

/-- The wait loop passes over one event that is for another descriptor or
carries neither the writable nor the error flag. -/
theorem serialWaitRun_cons_nonTerminal (fd : Nat) (ev : EpollEvent)
    (evs : List EpollEvent) (h : nonTerminal fd ev) :
    serialWaitRun fd (ev :: evs) = serialWaitRun fd evs := by
  rcases h with hfd | ⟨hout, herr⟩
  · simp [serialWaitRun, hfd]
  · by_cases hfd : ev.fd = fd
    · simp [serialWaitRun, hfd, hout, herr]
    · simp [serialWaitRun, hfd]

/-- The wait loop passes over any prefix of events that are for another
descriptor or carry neither the writable nor the error flag. -/
theorem serialWaitRun_append (fd : Nat) :
    ∀ pre evs, (∀ x ∈ pre, nonTerminal fd x) →
      serialWaitRun fd (pre ++ evs) = serialWaitRun fd evs := by
  intro pre
  induction pre with
  | nil =>
    intro evs _
    rfl
  | cons ev rest ih =>
    intro evs h
    rw [List.cons_append,
      serialWaitRun_cons_nonTerminal fd ev (rest ++ evs)
        (h ev (List.mem_cons_self ev rest))]
    exact ih evs fun x hx => h x (List.mem_cons_of_mem ev hx)

/-- The hangup mask carries neither the writable nor the error flag. -/
theorem EPOLLHUP_land_out : EPOLLHUP &&& EPOLLOUT = 0 := by decide

/-- The hangup mask carries neither the writable nor the error flag. -/
theorem EPOLLHUP_land_err : EPOLLHUP &&& EPOLLERR = 0 := by decide

/-- The writable mask tests positive for the writable flag. -/
theorem EPOLLOUT_land_self_ne : EPOLLOUT &&& EPOLLOUT ≠ 0 := by decide

/-- A hangup-only event is non-terminal for its own descriptor. -/
theorem hupEvent_nonTerminal (fd : Nat) : nonTerminal fd (hupEvent fd) :=
  Or.inr ⟨EPOLLHUP_land_out, EPOLLHUP_land_err⟩

/-- A writable-only event at the head of the trace returns success. -/
theorem serialWaitRun_out (fd : Nat) (evs : List EpollEvent) :
    serialWaitRun fd (outEvent fd :: evs) = .ready := by
  simp only [serialWaitRun]
  have hfd0 : (outEvent fd).fd = fd := rfl
  have hout0 : (outEvent fd).events &&& EPOLLOUT ≠ 0 := EPOLLOUT_land_self_ne
  rw [if_pos hfd0, if_pos hout0]

/-- C3 counterexample: an event carrying BOTH the writable and the
error-condition flag (mask 12 = EPOLLOUT plus EPOLLERR) is an error-condition
event, yet `wait` returns success, because the writable check comes first —
refuting "an error-condition event at any point never returns success". -/
theorem wait_out_and_err_event_returns_ready :
    (12 : Nat) &&& EPOLLERR ≠ 0 ∧
    serialChannelWait 3 [⟨12, 3⟩] = .ready ∧
    serialChannelWait 3 [⟨12, 3⟩] ≠ .ioFailure := by
  decide

/-- C3 amended: on a nonzero descriptor, hangup-only events followed by one
writable event make `wait` return success; an event that carries the
error-condition flag WITHOUT the writable flag, arriving after only
non-terminal events, makes `wait` fail with the serial-port-IO-failure error
(when a single event carries both flags, writable wins). -/
theorem wait_hup_transient_err_fatal_out_wins (fd : Nat) (hfd : fd ≠ 0) :
    (∀ n, serialChannelWait fd
      (List.replicate n (hupEvent fd) ++ [outEvent fd]) = .ready) ∧
    (∀ pre ev rest, (∀ x ∈ pre, nonTerminal fd x) → ev.fd = fd →
      ev.events &&& EPOLLERR ≠ 0 → ev.events &&& EPOLLOUT = 0 →
      serialChannelWait fd (pre ++ ev :: rest) = .ioFailure) := by
  constructor
  · intro n
    unfold serialChannelWait
    rw [if_neg hfd,
      serialWaitRun_append fd (List.replicate n (hupEvent fd)) [outEvent fd]
        (fun x hx => (List.eq_of_mem_replicate hx) ▸ hupEvent_nonTerminal fd)]
    exact serialWaitRun_out fd []
  · intro pre ev rest hpre hevfd herr hout
    unfold serialChannelWait
    rw [if_neg hfd, serialWaitRun_append fd pre (ev :: rest) hpre]
    simp only [serialWaitRun]
    rw [if_pos hevfd, if_neg (fun hne => hne hout), if_pos herr]

/-- Witness for the amended C3 at concrete inputs: two hangups then writable
succeed; a hangup then an error-only event fails. -/
theorem wait_hup_transient_err_fatal_witness :
    serialChannelWait 3 (List.replicate 2 (hupEvent 3) ++ [outEvent 3]) = .ready ∧
    serialChannelWait 3 ([hupEvent 3] ++ ⟨EPOLLERR, 3⟩ :: []) = .ioFailure := by
  constructor
  · exact (wait_hup_transient_err_fatal_out_wins 3 (by decide)).1 2
  · exact (wait_hup_transient_err_fatal_out_wins 3 (by decide)).2
      [hupEvent 3] ⟨EPOLLERR, 3⟩ [] (by decide) rfl (by decide) (by decide)

/-- The resolver loop passes over any prefix of children that are skipped
(missing descriptor) or readable but non-matching. -/
theorem findInPorts_append (serialName : String) :
    ∀ pre rest, (∀ x ∈ pre, skipOrNoMatch serialName x) →
      findInPorts serialName (pre ++ rest) = findInPorts serialName rest := by
  intro pre
  induction pre with
  | nil =>
    intro rest _
    rfl
  | cons x xs ih =>
    intro rest h
    have hx := h x (List.mem_cons_self x xs)
    have hxs : ∀ y ∈ xs, skipOrNoMatch serialName y :=
      fun y hy => h y (List.mem_cons_of_mem x hy)
    rcases x with ⟨p, r⟩
    unfold skipOrNoMatch at hx
    rcases hx with hne | ⟨s, hc, hm⟩
    · have hr : r = ReadResult.notExist := hne
      subst hr
      simp only [List.cons_append, findInPorts]
      exact ih rest hxs
    · have hr : r = ReadResult.content s := hc
      subst hr
      simp only [List.cons_append, findInPorts]
      rw [if_neg (by simp [hm])]
      exact ih rest hxs

/-- C6: the resolver skips a child whose name descriptor file does not exist,
fails immediately with that error on any other descriptor read failure, and
on the first enumerated child whose descriptor content contains the target
name returns the device path built from the device-root prefix and that
child's identifier. -/
theorem resolver_skip_failfast_first_match (serialName : String) :
    (∀ p rest,
      findVirtualSerialPath serialName (.ok ((p, .notExist) :: rest)) =
        findVirtualSerialPath serialName (.ok rest)) ∧
    (∀ pre p e rest, (∀ x ∈ pre, skipOrNoMatch serialName x) →
      findVirtualSerialPath serialName (.ok (pre ++ (p, .readErr e) :: rest)) =
        .error (.readFailure e)) ∧
    (∀ pre p s rest, (∀ x ∈ pre, skipOrNoMatch serialName x) →
      goStringsContains s serialName = true →
      findVirtualSerialPath serialName (.ok (pre ++ (p, .content s) :: rest)) =
        .ok (filepathJoin devRootPath p)) := by
  refine ⟨?_, ?_, ?_⟩
  · intro p rest
    rfl
  · intro pre p e rest hpre
    show findInPorts serialName (pre ++ (p, .readErr e) :: rest) = _
    rw [findInPorts_append serialName pre _ hpre]
    rfl
  · intro pre p s rest hpre hm
    show findInPorts serialName (pre ++ (p, .content s) :: rest) = _
    rw [findInPorts_append serialName pre _ hpre]
    simp only [findInPorts]
    rw [if_pos hm]

/-- Witness for C6 on the spec's example directory: `A` matches first, `B`
with no descriptor file is passed over harmlessly. -/
theorem resolver_skip_failfast_first_match_witness :
    findVirtualSerialPath "foo"
      (.ok [("A", .content "name=foo"), ("B", .notExist),
        ("C", .content "xxxfooyyy")]) =
      .ok (filepathJoin devRootPath "A") :=
  (resolver_skip_failfast_first_match "foo").2.2 [] "A" "name=foo"
    [("B", .notExist), ("C", .content "xxxfooyyy")]
    (fun x hx => absurd hx (List.not_mem_nil x)) (by decide)

/-- The per-child loop never produces the root-unavailable error. -/
theorem findInPorts_ne_rootUnavailable (serialName : String) :
    ∀ L e, findInPorts serialName L ≠ .error (.rootUnavailable e) := by
  intro L
  induction L with
  | nil =>
    intro e h
    simp [findInPorts] at h
  | cons x xs ih =>
    intro e
    rcases x with ⟨p, r⟩
    rcases r with _ | e0 | s
    · exact ih e
    · intro h
      simp [findInPorts] at h
    · by_cases hm : goStringsContains s serialName = true
      · simp only [findInPorts]
        rw [if_pos hm]
        intro h
        exact Except.noConfusion h
      · simp only [findInPorts]
        rw [if_neg hm]
        exact ih e

/-- The per-child loop yields the not-found error exactly when every child is
passed over: missing descriptor, or readable content not containing the
target name. -/
theorem findInPorts_notFound_iff (serialName : String) :
    ∀ L, findInPorts serialName L = .error (.notFound serialName) ↔
      ∀ x ∈ L, skipOrNoMatch serialName x := by
  intro L
  induction L with
  | nil =>
    simp [findInPorts]
  | cons x xs ih =>
    rcases x with ⟨p, r⟩
    rcases r with _ | e0 | s
    · rw [show findInPorts serialName ((p, ReadResult.notExist) :: xs) =
          findInPorts serialName xs from rfl, ih]
      constructor
      · intro h y hy
        rcases List.mem_cons.mp hy with hy0 | hy1
        · subst hy0
          exact Or.inl rfl
        · exact h y hy1
      · intro h y hy
        exact h y (List.mem_cons_of_mem _ hy)
    · constructor
      · intro h
        simp [findInPorts] at h
      · intro h
        exfalso
        have hx := h (p, ReadResult.readErr e0) (List.mem_cons_self _ _)
        unfold skipOrNoMatch at hx
        rcases hx with h1 | ⟨u, h1, _⟩ <;> exact ReadResult.noConfusion h1
    · by_cases hm : goStringsContains s serialName = true
      · constructor
        · intro h
          simp only [findInPorts] at h
          rw [if_pos hm] at h
          exact Except.noConfusion h
        · intro h
          exfalso
          have hx := h (p, ReadResult.content s) (List.mem_cons_self _ _)
          unfold skipOrNoMatch at hx
          rcases hx with h1 | ⟨u, h1, hcu⟩
          · exact ReadResult.noConfusion h1
          · have hu : s = u := by injection h1
            subst hu
            rw [hm] at hcu
            exact Bool.noConfusion hcu
      · have hmf : goStringsContains s serialName = false := by
          revert hm
          cases goStringsContains s serialName <;> simp
        have hstep : findInPorts serialName ((p, ReadResult.content s) :: xs) =
            findInPorts serialName xs := by
          simp only [findInPorts]
          rw [if_neg hm]
        rw [hstep, ih]
        constructor
        · intro h y hy
          rcases List.mem_cons.mp hy with hy0 | hy1
          · subst hy0
            exact Or.inr ⟨s, rfl, hmf⟩
          · exact h y hy1
        · intro h y hy
          exact h y (List.mem_cons_of_mem _ hy)

/-- C7: the resolver fails with the not-found classification exactly when it
opened and listed the root and exhausted it with no child's descriptor
content containing the target name; and it fails with the root error exactly
when the root directory could not be opened or listed. -/
theorem resolver_notFound_exactly_on_exhaustion (serialName : String)
    (root : Except String (List (String × ReadResult))) :
    (findVirtualSerialPath serialName root = .error (.notFound serialName) ↔
      ∃ L, root = .ok L ∧ ∀ x ∈ L, skipOrNoMatch serialName x) ∧
    (∀ e, findVirtualSerialPath serialName root = .error (.rootUnavailable e) ↔
      root = .error e) := by
  rcases root with e0 | L
  · constructor
    · constructor
      · intro h
        simp [findVirtualSerialPath] at h
      · rintro ⟨L, hL, _⟩
        exact Except.noConfusion hL
    · intro e
      simp [findVirtualSerialPath]
  · constructor
    · rw [show findVirtualSerialPath serialName (.ok L) =
          findInPorts serialName L from rfl, findInPorts_notFound_iff]
      constructor
      · intro h
        exact ⟨L, rfl, h⟩
      · rintro ⟨M, hM, h⟩
        injection hM with h2
        subst h2
        exact h
    · intro e
      constructor
      · intro h
        exact absurd h (findInPorts_ne_rootUnavailable serialName L e)
      · intro h
        exact Except.noConfusion h

/-- Witness for C7 at concrete inputs: an exhausted directory with no match
yields not-found; an unreadable root yields the root error. -/
theorem resolver_notFound_exactly_on_exhaustion_witness :
    findVirtualSerialPath "foo" (.ok [("B", .notExist), ("C", .content "bar")]) =
      .error (.notFound "foo") ∧
    findVirtualSerialPath "foo" (.error "EACCES") =
      .error (.rootUnavailable "EACCES") := by
  constructor
  · exact (resolver_notFound_exactly_on_exhaustion "foo"
      (.ok [("B", .notExist), ("C", .content "bar")])).1.mpr
      ⟨[("B", .notExist), ("C", .content "bar")], rfl, by decide⟩
  · exact ((resolver_notFound_exactly_on_exhaustion "foo"
      (.error "EACCES")).2 "EACCES").mpr rfl

/-- One discovery iteration on which neither branch succeeds steps the loop:
record the serial error, update the probe error when the stat succeeded,
sleep once, and move to the next index. -/
theorem newChannelAux_step_fail (env : Nat → IterEnv) (fuel i : Nat)
    (serialErr vsockErr : Option String) (sleeps : Nat) (e : String)
    (hnv : ¬ vsockSucceeds (env i)) (hsc : (env i).serial = .error e) :
    newChannelAux env (fuel + 1) i serialErr vsockErr sleeps =
      newChannelAux env fuel (i + 1) (some e)
        (if (env i).vsockStat = true then
          (isAFVSockSupported (env i).probeSock (env i).probeCloseErr).2
        else vsockErr) (sleeps + 1) := by
  by_cases hstat : (env i).vsockStat = true
  · have hcond :
        ¬ ((isAFVSockSupported (env i).probeSock (env i).probeCloseErr).1 = true ∧
          (isAFVSockSupported (env i).probeSock (env i).probeCloseErr).2 = none) :=
      fun hc => hnv ⟨hstat, hc.1, hc.2⟩
    simp only [newChannelAux]
    rw [if_pos hstat, if_neg hcond, hsc, if_pos hstat]
  · simp only [newChannelAux]
    rw [if_neg hstat, hsc, if_neg hstat]

/-- A discovery iteration on which the vsock branch succeeds returns the
vsock variant immediately, at the current iteration index. -/
theorem newChannelAux_step_vsock (env : Nat → IterEnv) (fuel i : Nat)
    (serialErr vsockErr : Option String) (sleeps : Nat)
    (hs : vsockSucceeds (env i)) :
    newChannelAux env (fuel + 1) i serialErr vsockErr sleeps =
      ⟨.ok .vSock, sleeps, some i, serialErr,
        (isAFVSockSupported (env i).probeSock (env i).probeCloseErr).2⟩ := by
  obtain ⟨hstat, h1, h2⟩ := hs
  simp only [newChannelAux]
  rw [if_pos hstat, if_pos ⟨h1, h2⟩]

/-- When every iteration fails, the loop exhausts its fuel, returns the fixed
not-found error, and sleeps once per iteration. -/
theorem newChannelAux_allFail (env : Nat → IterEnv) (h : ∀ j, iterFails (env j)) :
    ∀ fuel i serialErr vsockErr sleeps,
      (newChannelAux env fuel i serialErr vsockErr sleeps).ret = .error notFoundMsg ∧
      (newChannelAux env fuel i serialErr vsockErr sleeps).sleeps = sleeps + fuel ∧
      (newChannelAux env fuel i serialErr vsockErr sleeps).retIter = none := by
  intro fuel
  induction fuel with
  | zero =>
    intro i serialErr vsockErr sleeps
    exact ⟨rfl, rfl, rfl⟩
  | succ fuel ih =>
    intro i serialErr vsockErr sleeps
    obtain ⟨hnv, hse⟩ := h i
    rcases hsc : (env i).serial with e | p
    · rw [newChannelAux_step_fail env fuel i serialErr vsockErr sleeps e hnv hsc]
      obtain ⟨h1, h2, h3⟩ := ih (i + 1) (some e)
        (if (env i).vsockStat = true then
          (isAFVSockSupported (env i).probeSock (env i).probeCloseErr).2
        else vsockErr) (sleeps + 1)
      refine ⟨h1, ?_, h3⟩
      rw [h2]
      omega
    · rw [hsc] at hse
      simp [isErr] at hse

/-- When every iteration fails (and the vsock device path is present on every
iteration), the exhausted loop retains the final iteration's serial error and
probe error. -/
theorem newChannelAux_allFail_last (env : Nat → IterEnv)
    (h : ∀ j, iterFails (env j)) (hstat : ∀ j, (env j).vsockStat = true) :
    ∀ fuel i serialErr vsockErr sleeps,
      (newChannelAux env (fuel + 1) i serialErr vsockErr sleeps).lastSerialErr =
        lastErrOf (env (i + fuel)) ∧
      (newChannelAux env (fuel + 1) i serialErr vsockErr sleeps).lastVsockErr =
        (isAFVSockSupported (env (i + fuel)).probeSock
          (env (i + fuel)).probeCloseErr).2 := by
  intro fuel
  induction fuel with
  | zero =>
    intro i serialErr vsockErr sleeps
    obtain ⟨hnv, hse⟩ := h i
    rcases hsc : (env i).serial with e | p
    · rw [newChannelAux_step_fail env 0 i serialErr vsockErr sleeps e hnv hsc,
        if_pos (hstat i)]
      constructor
      · show some e = lastErrOf (env (i + 0))
        simp [lastErrOf, hsc]
      · rfl
    · rw [hsc] at hse
      simp [isErr] at hse
  | succ fuel ih =>
    intro i serialErr vsockErr sleeps
    obtain ⟨hnv, hse⟩ := h i
    rcases hsc : (env i).serial with e | p
    · rw [newChannelAux_step_fail env (fuel + 1) i serialErr vsockErr sleeps e hnv hsc]
      obtain ⟨h1, h2⟩ := ih (i + 1) (some e)
        (if (env i).vsockStat = true then
          (isAFVSockSupported (env i).probeSock (env i).probeCloseErr).2
        else vsockErr) (sleeps + 1)
      have hidx : i + 1 + fuel = i + (fuel + 1) := by omega
      rw [hidx] at h1 h2
      exact ⟨h1, h2⟩
    · rw [hsc] at hse
      simp [isErr] at hse

/-- If the first `k` iterations starting at `i` fail and the vsock branch
succeeds at iteration `i + k` (with fuel to reach it), the loop returns the
vsock variant at iteration `i + k`. -/
theorem newChannelAux_prefix_vsock (env : Nat → IterEnv) :
    ∀ k fuel i serialErr vsockErr sleeps,
      (∀ d, d < k → iterFails (env (i + d))) →
      vsockSucceeds (env (i + k)) →
      k < fuel →
      (newChannelAux env fuel i serialErr vsockErr sleeps).ret = .ok .vSock ∧
      (newChannelAux env fuel i serialErr vsockErr sleeps).retIter = some (i + k) := by
  intro k
  induction k with
  | zero =>
    intro fuel i serialErr vsockErr sleeps hpre hs hk
    obtain ⟨fuel, rfl⟩ : ∃ f, fuel = f + 1 := ⟨fuel - 1, by omega⟩
    rw [newChannelAux_step_vsock env fuel i serialErr vsockErr sleeps hs]
    exact ⟨rfl, rfl⟩
  | succ k ih =>
    intro fuel i serialErr vsockErr sleeps hpre hs hk
    obtain ⟨fuel, rfl⟩ : ∃ f, fuel = f + 1 := ⟨fuel - 1, by omega⟩
    obtain ⟨hnv, hse⟩ := hpre 0 (Nat.succ_pos k)
    rw [Nat.add_zero] at hnv hse
    rcases hsc : (env i).serial with e | p
    · rw [newChannelAux_step_fail env fuel i serialErr vsockErr sleeps e hnv hsc]
      have hpre1 : ∀ d, d < k → iterFails (env (i + 1 + d)) := by
        intro d hd
        have := hpre (d + 1) (by omega)
        rwa [show i + (d + 1) = i + 1 + d by omega] at this
      have hs1 : vsockSucceeds (env (i + 1 + k)) := by
        rwa [show i + (k + 1) = i + 1 + k by omega] at hs
      obtain ⟨h1, h2⟩ := ih fuel (i + 1) (some e)
        (if (env i).vsockStat = true then
          (isAFVSockSupported (env i).probeSock (env i).probeCloseErr).2
        else vsockErr) (sleeps + 1) hpre1 hs1 (by omega)
      refine ⟨h1, ?_⟩
      rw [h2]
      rw [show i + 1 + k = i + (k + 1) by omega]
    · rw [hsc] at hse
      simp [isErr] at hse

/-- Every iteration of the all-fail test environment fails on both
branches. -/
theorem envAllFail_fails (j : Nat) : iterFails (envAllFail j) := by
  show iterFails ⟨false, .errAFNoSupport, none, .error "serial not found"⟩
  decide

/-- Every iteration of the probe-error test environment fails on both
branches. -/
theorem envStatProbeErrFail_fails (j : Nat) :
    iterFails (envStatProbeErrFail j) := by
  show iterFails ⟨true, .errOther "socket failed", none, .error "serial not found"⟩
  decide

/-- C5: if neither transport ever becomes available, `newChannel` performs at
least `maxTries - 1` sleeps of the retry interval and then returns the
terminal not-found error. -/
theorem discovery_total_failure_lower_bound (env : Nat → IterEnv)
    (maxTries : Nat) (h : ∀ j, iterFails (env j)) :
    (newChannel env maxTries).ret = .error notFoundMsg ∧
    maxTries - 1 ≤ (newChannel env maxTries).sleeps := by
  obtain ⟨h1, h2, _⟩ := newChannelAux_allFail env h maxTries 0 none none 0
  refine ⟨h1, ?_⟩
  show maxTries - 1 ≤ (newChannelAux env maxTries 0 none none 0).sleeps
  rw [h2]
  omega

/-- Witness for C5 at a concrete input: with three iterations that all fail,
discovery returns the not-found error after at least two sleeps. -/
theorem discovery_total_failure_lower_bound_witness :
    (newChannel envAllFail 3).ret = .error notFoundMsg ∧
    3 - 1 ≤ (newChannel envAllFail 3).sleeps :=
  discovery_total_failure_lower_bound envAllFail 3 envAllFail_fails

/-- C10: on total discovery failure the loop sleeps after every failed
iteration including the final one, so exactly `maxTries` sleeps occur —
strictly more than the `maxTries - 1` lower bound. -/
theorem discovery_total_failure_sleep_count (env : Nat → IterEnv)
    (maxTries : Nat) (h : ∀ j, iterFails (env j)) :
    (newChannel env maxTries).ret = .error notFoundMsg ∧
    (newChannel env maxTries).sleeps = maxTries := by
  obtain ⟨h1, h2, _⟩ := newChannelAux_allFail env h maxTries 0 none none 0
  refine ⟨h1, ?_⟩
  show (newChannelAux env maxTries 0 none none 0).sleeps = maxTries
  rw [h2]
  omega

/-- Witness for C10 at a concrete input: three all-failing iterations sleep
exactly three times. -/
theorem discovery_total_failure_sleep_count_witness :
    (newChannel envAllFail 3).ret = .error notFoundMsg ∧
    (newChannel envAllFail 3).sleeps = 3 :=
  discovery_total_failure_sleep_count envAllFail 3 envAllFail_fails

/-- C2 counterexample: a serial device resolvable on iteration 0 is returned
immediately, even though the vsock device path appears with a succeeding
probe on iteration 1 — the loop never reaches the later iteration, refuting
"returns the socket variant on that later iteration, never the serial
variant". -/
theorem discovery_serial_found_early_wins :
    (newChannel envSerialThenVsock channelExistMaxTries).ret =
      .ok (.serial "/dev/vport1p1") ∧
    (newChannel envSerialThenVsock channelExistMaxTries).ret ≠ .ok .vSock ∧
    vsockSucceeds (envSerialThenVsock 1) := by
  have h1 : (newChannel envSerialThenVsock channelExistMaxTries).ret =
      .ok (.serial "/dev/vport1p1") := rfl
  refine ⟨h1, ?_, ⟨rfl, rfl, rfl⟩⟩
  rw [h1]
  intro h
  injection h with h2
  exact ChannelVariant.noConfusion h2

/-- C2 amended: if every iteration strictly before `j` fails on both branches
and the vsock device path is present with a succeeding probe at iteration `j`
(within the try budget), discovery returns the vsock variant at iteration
`j` — socket-over-serial preference is re-evaluated each iteration, but only
as long as no earlier iteration already succeeded. -/
theorem discovery_vsock_wins_absent_earlier_success (env : Nat → IterEnv)
    (maxTries j : Nat) (hpre : ∀ d, d < j → iterFails (env d))
    (hj : vsockSucceeds (env j)) (hjlt : j < maxTries) :
    (newChannel env maxTries).ret = .ok .vSock ∧
    (newChannel env maxTries).retIter = some j := by
  have hpre0 : ∀ d, d < j → iterFails (env (0 + d)) := by
    intro d hd
    rw [Nat.zero_add]
    exact hpre d hd
  have hj0 : vsockSucceeds (env (0 + j)) := by
    rw [Nat.zero_add]
    exact hj
  obtain ⟨h1, h2⟩ :=
    newChannelAux_prefix_vsock env j maxTries 0 none none 0 hpre0 hj0 hjlt
  refine ⟨h1, ?_⟩
  show (newChannelAux env maxTries 0 none none 0).retIter = some j
  rw [h2, Nat.zero_add]

/-- Witness for the amended C2 at a concrete input: iteration 0 fails, the
vsock transport appears at iteration 1 and is selected there. -/
theorem discovery_vsock_wins_absent_earlier_success_witness :
    (newChannel envFailThenVsock 200).ret = .ok .vSock ∧
    (newChannel envFailThenVsock 200).retIter = some 1 :=
  discovery_vsock_wins_absent_earlier_success envFailThenVsock 200 1
    (fun d hd => by
      have hd0 : d = 0 := by omega
      subst hd0
      decide)
    (by decide) (by omega)

/-- C4 counterexample: two total-failure runs whose last-observed serial
errors differ produce the very same returned error value, so the returned
not-found error does not carry the last-observed causes (the code only logs
them). -/
theorem discovery_error_does_not_carry_causes :
    (newChannel envFailA 1).ret = (newChannel envFailB 1).ret ∧
    (newChannel envFailA 1).lastSerialErr ≠ (newChannel envFailB 1).lastSerialErr := by
  constructor
  · rfl
  · have hA : (newChannel envFailA 1).lastSerialErr = some "err A" := rfl
    have hB : (newChannel envFailB 1).lastSerialErr = some "err B" := rfl
    rw [hA, hB]
    intro h
    injection h with h2
    exact absurd h2 (by decide)

/-- C4 amended: on exhaustion `newChannel` returns the fixed not-found error
message (which does not embed the underlying causes); the last-observed
serial-resolution error and capability-probe error are retained for the
diagnostic log: with every iteration failing and the vsock device path
present throughout, the retained serial error is the final iteration's
resolution error and the retained probe error is the final iteration's probe
error. -/
theorem discovery_exhaustion_retains_last_causes (env : Nat → IterEnv)
    (maxTries : Nat) (hpos : 1 ≤ maxTries) (h : ∀ j, iterFails (env j))
    (hstat : ∀ j, (env j).vsockStat = true) :
    (newChannel env maxTries).ret = .error notFoundMsg ∧
    (newChannel env maxTries).lastSerialErr = lastErrOf (env (maxTries - 1)) ∧
    (newChannel env maxTries).lastVsockErr =
      (isAFVSockSupported (env (maxTries - 1)).probeSock
        (env (maxTries - 1)).probeCloseErr).2 := by
  obtain ⟨fuel, rfl⟩ : ∃ f, maxTries = f + 1 := ⟨maxTries - 1, by omega⟩
  obtain ⟨h1, _, _⟩ := newChannelAux_allFail env h (fuel + 1) 0 none none 0
  obtain ⟨h2, h3⟩ := newChannelAux_allFail_last env h hstat fuel 0 none none 0
  rw [Nat.zero_add] at h2 h3
  have hidx : fuel + 1 - 1 = fuel := by omega
  rw [hidx]
  exact ⟨h1, h2, h3⟩

/-- Witness for the amended C4 at a concrete input: two failing iterations
with the vsock path present retain the final iteration's serial and probe
errors while returning the fixed message. -/
theorem discovery_exhaustion_retains_last_causes_witness :
    (newChannel envStatProbeErrFail 2).ret = .error notFoundMsg ∧
    (newChannel envStatProbeErrFail 2).lastSerialErr =
      lastErrOf (envStatProbeErrFail 1) ∧
    (newChannel envStatProbeErrFail 2).lastVsockErr =
      (isAFVSockSupported (envStatProbeErrFail 1).probeSock
        (envStatProbeErrFail 1).probeCloseErr).2 :=
  discovery_exhaustion_retains_last_causes envStatProbeErrFail 2 (by omega)
    envStatProbeErrFail_fails (fun _ => rfl)

/-- C9: when the vsock device path exists and the probe reports the address
family supported but with a non-nil error (socket created, close failed), the
iteration does not return the vsock variant: it falls through to serial
resolution and, when that succeeds, returns the serial variant at this very
iteration. -/
theorem discovery_probe_error_falls_through_to_serial (env : Nat → IterEnv)
    (fuel i : Nat) (serialErr vsockErr : Option String) (sleeps : Nat)
    (fd : Nat) (e p : String)
    (hstat : (env i).vsockStat = true)
    (hsock : (env i).probeSock = .ok fd)
    (hclose : (env i).probeCloseErr = some e)
    (hser : (env i).serial = .ok p) :
    (newChannelAux env (fuel + 1) i serialErr vsockErr sleeps).ret =
      .ok (.serial p) ∧
    (newChannelAux env (fuel + 1) i serialErr vsockErr sleeps).retIter = some i := by
  have hcond :
      ¬ ((isAFVSockSupported (env i).probeSock (env i).probeCloseErr).1 = true ∧
        (isAFVSockSupported (env i).probeSock (env i).probeCloseErr).2 = none) := by
    rw [hsock, hclose]
    simp [isAFVSockSupported]
  have hstep : newChannelAux env (fuel + 1) i serialErr vsockErr sleeps =
      ⟨.ok (.serial p), sleeps, some i, none,
        (isAFVSockSupported (env i).probeSock (env i).probeCloseErr).2⟩ := by
    simp only [newChannelAux]
    rw [if_pos hstat, if_neg hcond, hser]
  rw [hstep]
  exact ⟨rfl, rfl⟩

/-- Witness for C9 at a concrete input: probe reports support with a close
error, serial is resolvable, and the serial variant is returned at
iteration 0. -/
theorem discovery_probe_error_falls_through_witness :
    (newChannelAux envProbeErrSerial 1 0 none none 0).ret =
      .ok (.serial "/dev/vport2p2") ∧
    (newChannelAux envProbeErrSerial 1 0 none none 0).retIter = some 0 :=
  discovery_probe_error_falls_through_to_serial envProbeErrSerial 0 0 none none 0
    5 "close failed" "/dev/vport2p2" rfl rfl rfl rfl

end Agent
